import Mathlib

/-!
Shallow embedding of the prompted-input helper from `src/lib/src/input.rs`
(crate `lib`, module `input`) together with theorems settling the frozen
claims about it.

Modelling conventions:
* A Rust `FromStr` target type `T` is modelled by a record carrying its
  textual parse function `String → Except String T`; the `String` in the
  error position stands for the parse error's `Display` description.
* The standard-input stream is modelled as a list of per-attempt inputs.
  Each attempt supplies (a) whether the `stdout().flush()` call succeeds
  and (b) the result of `stdin().read_line` — either a line (`Except.ok`)
  or an I/O-failure description (`Except.error`).
* `print!`/`println!` output is collected into a transcript list: the
  prompt entry has no trailing newline marker, each error line is one entry.
* Whitespace, as used by Rust's `str::trim`, is modelled by
  `Char.isWhitespace`, which covers the ASCII whitespace relevant here.
-/

/-- Rust `str::trim`: remove leading and trailing whitespace.  Modelled over
the character list of the string so that it reduces by `rfl`/`decide`. -/
def rustTrim (s : String) : String :=
  String.mk (((s.data.dropWhile Char.isWhitespace).reverse.dropWhile Char.isWhitespace).reverse)

/-- The `FromStr` capability of a target type `T`: a textual parse rule that
yields either a value or a descriptive error (`T::Err`'s display text). -/
structure FromStr (T : Type) where
  parse : String → Except String T

/-- Rust `u32::from_str` (as reached through `str::parse::<u32>()`): an
optional leading `+` sign followed by one or more ASCII digits, with the
value required to fit in 32 bits.  The error strings are the display texts
of the corresponding `ParseIntError` kinds. -/
def parseU32 (s : String) : Except String Nat :=
  let cs := match s.data with
    | '+' :: rest => rest
    | cs => cs
  if cs.isEmpty then Except.error "cannot parse integer from empty string"
  else if cs.all Char.isDigit then
    let n := cs.foldl (fun acc c => acc * 10 + (c.toNat - 48)) 0
    if n < 4294967296 then Except.ok n
    else Except.error "number too large to fit in target type"
  else Except.error "invalid digit found in string"

/-- The `FromStr` instance for the `u32` target used by the demonstration
program (`Enter age`). -/
def u32FromStr : FromStr Nat := { parse := parseU32 }

/-- The `FromStr` instance of Rust's `String`: the identity parse, which
never fails. -/
def stringFromStr : FromStr String := { parse := fun s => Except.ok s }

/-- `fn _read<T>() -> Result<T, Box<dyn Error>>` from `input.rs`: obtain one
line from stdin (propagating a read failure with `?`), trim it, and parse
the trimmed text (propagating a parse failure with `?`).  The line-read
result is passed in explicitly, standing for `stdin().read_line`. -/
def _read {T : Type} (fs : FromStr T) (line : Except String String) : Except String T :=
  match line with
  | Except.error e => Except.error e
  | Except.ok value => fs.parse (rustTrim value)

/-- `pub struct Input<'a, T>` from `input.rs`: the prompt configuration.
`msg` is the prompt text, `predicate` the acceptance predicate
(`Box<dyn Fn(&T) -> bool>`), `err_msg` the validation-failure message. -/
structure Input (T : Type) where
  msg : String
  predicate : T → Bool
  err_msg : String

/-- `Input::new`: fresh configuration with the given prompt, the
always-accept predicate, and the default error message `"Entrada inválida"`. -/
def Input.new {T : Type} (msg : String) : Input T :=
  { msg := msg, predicate := fun _ => true, err_msg := "Entrada inválida" }

/-- `Input::validate`: replace the acceptance predicate, leaving the other
fields unchanged, and return the configuration for chaining. -/
def Input.validate {T : Type} (i : Input T) (predicate : T → Bool) : Input T :=
  { i with predicate := predicate }

/-- `Input::err_msg`: replace the validation-failure message, leaving the
other fields unchanged, and return the configuration for chaining.  (Named
`errMsg` here because the field accessor already carries the source name.) -/
def Input.errMsg {T : Type} (i : Input T) (err_msg : String) : Input T :=
  { i with err_msg := err_msg }

/-- One per-attempt interaction with the outside world: whether
`stdout().flush()` succeeds, and what `stdin().read_line` yields. -/
structure Attempt where
  flushOk : Bool
  line : Except String String

/-- Rust's `stdin().read_line` at end-of-stream: it returns `Ok(0)` and
leaves the buffer empty, so the attempt sees a successfully read empty
line — end-of-stream is not a `read_line` error. -/
def eofLine : Except String String := Except.ok ""

/-- The observable outcome of running `Input::read` against a finite list
of attempts: a returned value with the printed transcript and the number of
attempts consumed; a panic (the `expect` on a failed flush) with the
transcript printed up to that point; or exhaustion of the supplied attempt
list while the loop is still running. -/
inductive ReadOutcome (T : Type) where
  | value (v : T) (transcript : List String) (attempts : Nat)
  | panic (transcript : List String)
  | outOfInput (transcript : List String)

/-- Prefix one failed attempt's printed lines onto a later outcome and count
the extra attempt. -/
def ReadOutcome.prepend {T : Type} (pre : List String) : ReadOutcome T → ReadOutcome T
  | ReadOutcome.value v tr n => ReadOutcome.value v (pre ++ tr) (n + 1)
  | ReadOutcome.panic tr => ReadOutcome.panic (pre ++ tr)
  | ReadOutcome.outOfInput tr => ReadOutcome.outOfInput (pre ++ tr)

/-- `Input::read` from `input.rs`, one loop iteration per list element:
print `"{msg}: "` and flush (panicking if the flush fails), call `_read`,
and then either return the parsed value (predicate accepted), print
`"Error: {err_msg}"` and retry (predicate rejected), or print
`"Error de formato: {e}"` and retry (`_read` failed). -/
def Input.read {T : Type} (i : Input T) (fs : FromStr T) : List Attempt → ReadOutcome T
  | [] => ReadOutcome.outOfInput []
  | a :: rest =>
    if a.flushOk then
      match _read fs a.line with
      | Except.ok input =>
        if i.predicate input then ReadOutcome.value input [i.msg ++ ": "] 1
        else ReadOutcome.prepend [i.msg ++ ": ", "Error: " ++ i.err_msg] (Input.read i fs rest)
      | Except.error e =>
        ReadOutcome.prepend [i.msg ++ ": ", "Error de formato: " ++ e] (Input.read i fs rest)
    else ReadOutcome.panic [i.msg ++ ": "]

/-- If prefixing a transcript yields a returned value, the inner outcome was
already that value (with a shorter transcript and one fewer attempt). -/
theorem ReadOutcome.prepend_eq_value {T : Type} (pre : List String) (o : ReadOutcome T)
    (v : T) (tr : List String) (n : Nat)
    (h : ReadOutcome.prepend pre o = ReadOutcome.value v tr n) :
    ∃ tr' n', o = ReadOutcome.value v tr' n' := by
  cases o with
  | value w tr' n' =>
    refine ⟨tr', n', ?_⟩
    simp only [ReadOutcome.prepend] at h
    cases h
    rfl
  | panic tr' => simp [ReadOutcome.prepend] at h
  | outOfInput tr' => simp [ReadOutcome.prepend] at h

/-- If prefixing a transcript yields a panic, the inner outcome was already
a panic. -/
theorem ReadOutcome.prepend_eq_panic {T : Type} (pre : List String) (o : ReadOutcome T)
    (tr : List String) (h : ReadOutcome.prepend pre o = ReadOutcome.panic tr) :
    ∃ tr', o = ReadOutcome.panic tr' := by
  cases o with
  | value w tr' n' => simp [ReadOutcome.prepend] at h
  | panic tr' => exact ⟨tr', rfl⟩
  | outOfInput tr' => simp [ReadOutcome.prepend] at h

/-- Claim C1: for every target type, configuration, and input line whose
trimmed text parses and whose parsed value the acceptance predicate accepts,
`Input::read` returns that parsed value after exactly one attempt (only the
prompt is printed, the attempt count is 1, no retry occurs). -/
theorem c1_parse_and_accept_single_attempt {T : Type} (i : Input T) (fs : FromStr T)
    (L : String) (v : T) (rest : List Attempt)
    (hp : fs.parse (rustTrim L) = Except.ok v) (hacc : i.predicate v = true) :
    i.read fs ({ flushOk := true, line := Except.ok L } :: rest)
      = ReadOutcome.value v [i.msg ++ ": "] 1 := by
  simp [Input.read, _read, hp, hacc]

/-- Witness for C1: reading `" 42\n"` with the demonstration's `Enter age`
configuration returns 42 on the first attempt. -/
theorem c1_parse_and_accept_single_attempt_witness :
    (Input.new (T := Nat) "Enter age").read u32FromStr
        [{ flushOk := true, line := Except.ok " 42\n" }]
      = ReadOutcome.value 42 ["Enter age: "] 1 :=
  c1_parse_and_accept_single_attempt (Input.new "Enter age") u32FromStr " 42\n" 42 []
    (by rfl) (by rfl)

/-- Claim C2: whenever `Input::read` returns a value, that value came from an
attempt whose `_read` parsed successfully to it and the acceptance predicate
holds on it; a failed parse or a rejected value is never returned. -/
theorem c2_returned_value_parsed_and_accepted {T : Type} (i : Input T) (fs : FromStr T)
    (as : List Attempt) (v : T) (tr : List String) (n : Nat)
    (h : i.read fs as = ReadOutcome.value v tr n) :
    i.predicate v = true ∧ ∃ a ∈ as, _read fs a.line = Except.ok v := by
  induction as generalizing tr n with
  | nil => simp [Input.read] at h
  | cons a rest ih =>
    rw [Input.read] at h
    split at h
    · split at h
      next input heq =>
        split at h
        next hacc =>
          cases h
          exact ⟨hacc, a, List.mem_cons_self a rest, heq⟩
        next =>
          obtain ⟨tr', n', ho⟩ := ReadOutcome.prepend_eq_value _ _ _ _ _ h
          obtain ⟨hpred, a', ha', hr⟩ := ih tr' n' ho
          exact ⟨hpred, a', List.mem_cons_of_mem a ha', hr⟩
      next e heq =>
        obtain ⟨tr', n', ho⟩ := ReadOutcome.prepend_eq_value _ _ _ _ _ h
        obtain ⟨hpred, a', ha', hr⟩ := ih tr' n' ho
        exact ⟨hpred, a', List.mem_cons_of_mem a ha', hr⟩
    · cases h

/-- Witness for C2: a run that retries once over a rejected value and then
returns 5; the theorem recovers that 5 was parsed and accepted. -/
theorem c2_returned_value_parsed_and_accepted_witness :
    ((Input.new (T := Nat) "Edad").validate fun n => decide (0 < n)).predicate 5 = true
    ∧ ∃ a ∈ [({ flushOk := true, line := Except.ok "0" } : Attempt),
             { flushOk := true, line := Except.ok "5" }],
        _read u32FromStr a.line = Except.ok 5 :=
  c2_returned_value_parsed_and_accepted
    ((Input.new "Edad").validate fun n => decide (0 < n)) u32FromStr
    [{ flushOk := true, line := Except.ok "0" }, { flushOk := true, line := Except.ok "5" }]
    5 ["Edad: ", "Error: Entrada inválida", "Edad: "] 2 (by rfl)

/-- Counterexample to Claim C3: for a configuration built with `Input::new`
on which `err_msg` is never called, a rejected value makes the loop print
`"Error: Entrada inválida"`, and the default message field is not the
literal `"Invalid input"` the claim states. -/
theorem c3_default_message_counterexample :
    ((Input.new (T := Nat) "Edad").validate fun n => decide (0 < n)).read u32FromStr
        [{ flushOk := true, line := Except.ok "0" }, { flushOk := true, line := Except.ok "5" }]
      = ReadOutcome.value 5 ["Edad: ", "Error: Entrada inválida", "Edad: "] 2
    ∧ (Input.new (T := Nat) "Edad").err_msg ≠ "Invalid input" :=
  ⟨by rfl, by decide⟩

/-- Claim C3 (amended): for a configuration built with `Input::new` on which
`err_msg` is never called, the rejection message in effect is the fixed
default literal `"Entrada inválida"`: a parsed-but-rejected line makes the
attempt print the line `"Error: Entrada inválida"` and the loop retry. -/
theorem c3_default_rejection_message {T : Type} (fs : FromStr T) (msg : String)
    (p : T → Bool) (L : String) (v : T) (rest : List Attempt)
    (hp : fs.parse (rustTrim L) = Except.ok v) (hrej : p v = false) :
    ((Input.new msg).validate p).read fs ({ flushOk := true, line := Except.ok L } :: rest)
      = ReadOutcome.prepend [msg ++ ": ", "Error: Entrada inválida"]
          (((Input.new msg).validate p).read fs rest) := by
  simp [Input.read, _read, Input.new, Input.validate, hp, hrej]

/-- Witness for amended C3: with the default message and a positivity
predicate, the line `"0"` prints `"Error: Entrada inválida"` and retries. -/
theorem c3_default_rejection_message_witness :
    ((Input.new (T := Nat) "Edad").validate fun n => decide (0 < n)).read u32FromStr
        [{ flushOk := true, line := Except.ok "0" }, { flushOk := true, line := Except.ok "5" }]
      = ReadOutcome.prepend ["Edad: ", "Error: Entrada inválida"]
          (((Input.new (T := Nat) "Edad").validate fun n => decide (0 < n)).read u32FromStr
            [{ flushOk := true, line := Except.ok "5" }]) :=
  c3_default_rejection_message u32FromStr "Edad" (fun n => decide (0 < n)) "0" 0
    [{ flushOk := true, line := Except.ok "5" }] (by rfl) (by rfl)

/-- Counterexample to Claim C4: with a configured rejection message
`"must be positive"`, the rejected attempt prints
`"Error: must be positive"` — not the configured message alone, so the text
shown is not the message verbatim without decoration. -/
theorem c4_rejection_line_counterexample :
    (((Input.new (T := Nat) "Edad").validate fun n => decide (0 < n)).errMsg
        "must be positive").read u32FromStr
        [{ flushOk := true, line := Except.ok "0" }, { flushOk := true, line := Except.ok "5" }]
      = ReadOutcome.value 5 ["Edad: ", "Error: must be positive", "Edad: "] 2
    ∧ "Error: must be positive" ≠ "must be positive" :=
  ⟨by rfl, by decide⟩

/-- Claim C4 (amended): for every parsed-but-rejected line, the text printed
is the configured rejection message preceded by the fixed framing
`"Error: "` (and nothing else): the attempt prints exactly the one line
`"Error: " ++ err_msg` and the loop retries. -/
theorem c4_rejection_line_format {T : Type} (i : Input T) (fs : FromStr T)
    (L : String) (v : T) (rest : List Attempt)
    (hp : fs.parse (rustTrim L) = Except.ok v) (hrej : i.predicate v = false) :
    i.read fs ({ flushOk := true, line := Except.ok L } :: rest)
      = ReadOutcome.prepend [i.msg ++ ": ", "Error: " ++ i.err_msg] (i.read fs rest) := by
  simp [Input.read, _read, hp, hrej]

/-- Witness for amended C4: the `"must be positive"` configuration prints
`"Error: must be positive"` on the rejected line `"0"` and retries. -/
theorem c4_rejection_line_format_witness :
    (((Input.new (T := Nat) "Edad").validate fun n => decide (0 < n)).errMsg
        "must be positive").read u32FromStr
        [{ flushOk := true, line := Except.ok "0" }, { flushOk := true, line := Except.ok "5" }]
      = ReadOutcome.prepend ["Edad: ", "Error: must be positive"]
          ((((Input.new (T := Nat) "Edad").validate fun n => decide (0 < n)).errMsg
              "must be positive").read u32FromStr [{ flushOk := true, line := Except.ok "5" }]) :=
  c4_rejection_line_format
    (((Input.new "Edad").validate fun n => decide (0 < n)).errMsg "must be positive")
    u32FromStr "0" 0 [{ flushOk := true, line := Except.ok "5" }] (by rfl) (by rfl)

/-- Claim C5: for every line whose trimmed text fails to parse, the attempt
is independent of the acceptance predicate (the equation holds uniformly in
`p`, so the predicate is never invoked): the attempt prints the format-error
line embedding the parse error's description and the loop retries. -/
theorem c5_parse_failure_skips_predicate {T : Type} (msg em : String) (p : T → Bool)
    (fs : FromStr T) (L e : String) (rest : List Attempt)
    (hp : fs.parse (rustTrim L) = Except.error e) :
    (Input.mk msg p em).read fs ({ flushOk := true, line := Except.ok L } :: rest)
      = ReadOutcome.prepend [msg ++ ": ", "Error de formato: " ++ e]
          ((Input.mk msg p em).read fs rest) := by
  simp [Input.read, _read, hp]

/-- Witness for C5: the unparseable line `"abc"` for a `u32` target prints
`"Error de formato: invalid digit found in string"` and retries. -/
theorem c5_parse_failure_skips_predicate_witness :
    (Input.mk "Edad" (fun n : Nat => decide (0 < n)) "must be positive").read u32FromStr
        [{ flushOk := true, line := Except.ok "abc" }, { flushOk := true, line := Except.ok "5" }]
      = ReadOutcome.prepend ["Edad: ", "Error de formato: invalid digit found in string"]
          ((Input.mk "Edad" (fun n : Nat => decide (0 < n)) "must be positive").read u32FromStr
            [{ flushOk := true, line := Except.ok "5" }]) :=
  c5_parse_failure_skips_predicate "Edad" "must be positive" (fun n => decide (0 < n))
    u32FromStr "abc" "invalid digit found in string"
    [{ flushOk := true, line := Except.ok "5" }] (by rfl)

/-- Counterexample to Claim C6: end-of-stream is not handled through the
parse-failure path.  `read_line` at end-of-stream returns `Ok(0)` with an
empty buffer (`eofLine`), so `_read` sees a successfully read empty line;
for a `String` target it parses (infallibly) and the default predicate
accepts it, so `Read` returns `""` to the caller on that very attempt —
no format-error report and no retry, contrary to the claim. -/
theorem c6_end_of_stream_counterexample :
    (Input.new (T := String) "Enter name").read stringFromStr
        [{ flushOk := true, line := eofLine }]
      = ReadOutcome.value "" ["Enter name: "] 1
    ∧ _read stringFromStr eofLine = Except.ok "" :=
  ⟨rfl, rfl⟩

/-- Claim C6 (amended): an I/O error of `read_line` — the case in which the
line genuinely cannot be obtained, which does not include end-of-stream —
is handled through exactly the parse-failure path: `_read` propagates it
unchanged, the attempt prints the same `"Error de formato: ..."` line and
retries (never propagating it to the caller), and the whole run is
indistinguishable from one whose line parsed with the same error
description. -/
theorem c6_line_failure_same_as_parse_failure {T : Type} (i : Input T) (fs : FromStr T)
    (e : String) (rest : List Attempt) :
    _read fs (Except.error e) = Except.error e
    ∧ i.read fs ({ flushOk := true, line := Except.error e } :: rest)
        = ReadOutcome.prepend [i.msg ++ ": ", "Error de formato: " ++ e] (i.read fs rest)
    ∧ ∀ L, fs.parse (rustTrim L) = Except.error e →
        i.read fs ({ flushOk := true, line := Except.error e } :: rest)
          = i.read fs ({ flushOk := true, line := Except.ok L } :: rest) := by
  refine ⟨rfl, by simp [Input.read, _read], fun L hL => ?_⟩
  simp [Input.read, _read, hL]

/-- Witness for C6: an I/O failure with the description
`"invalid digit found in string"` yields exactly the run that the
unparseable line `"abc"` yields. -/
theorem c6_line_failure_same_as_parse_failure_witness :
    (Input.new (T := Nat) "Edad").read u32FromStr
        [{ flushOk := true, line := Except.error "invalid digit found in string" }]
      = (Input.new (T := Nat) "Edad").read u32FromStr
          [{ flushOk := true, line := Except.ok "abc" }] :=
  (c6_line_failure_same_as_parse_failure (Input.new "Edad") u32FromStr
      "invalid digit found in string" []).2.2 "abc" (by rfl)

/-- Claim C7: if the flush of the prompt fails, `Input::read` stops at once
with a panic (the prompt is the only output, nothing further is attempted),
and a panic happens only through a flush failure: when every attempt's flush
succeeds the run never ends in a panic. -/
theorem c7_flush_failure_only_abnormal_exit {T : Type} (i : Input T) (fs : FromStr T) :
    (∀ (l : Except String String) (rest : List Attempt),
        i.read fs ({ flushOk := false, line := l } :: rest) = ReadOutcome.panic [i.msg ++ ": "])
    ∧ ∀ as : List Attempt, (∀ a ∈ as, a.flushOk = true) →
        ∀ tr, i.read fs as ≠ ReadOutcome.panic tr := by
  constructor
  · intro l rest
    simp [Input.read]
  · intro as
    induction as with
    | nil => intro _ tr h; simp [Input.read] at h
    | cons a rest ih =>
      intro hflush tr h
      rw [Input.read] at h
      split at h
      · split at h
        next input heq =>
          split at h
          next => cases h
          next =>
            obtain ⟨tr', ho⟩ := ReadOutcome.prepend_eq_panic _ _ _ h
            exact ih (fun a' ha' => hflush a' (List.mem_cons_of_mem a ha')) tr' ho
        next e heq =>
          obtain ⟨tr', ho⟩ := ReadOutcome.prepend_eq_panic _ _ _ h
          exact ih (fun a' ha' => hflush a' (List.mem_cons_of_mem a ha')) tr' ho
      next hf =>
        exact hf (hflush a (List.mem_cons_self a rest))

/-- Witness for C7: a failed flush on the first attempt panics immediately
(printing only the prompt, ignoring the remaining input), while a run whose
flushes all succeed does not panic. -/
theorem c7_flush_failure_only_abnormal_exit_witness :
    (Input.new (T := Nat) "Edad").read u32FromStr
        [{ flushOk := false, line := Except.ok "42" }, { flushOk := true, line := Except.ok "42" }]
      = ReadOutcome.panic ["Edad: "]
    ∧ (Input.new (T := Nat) "Edad").read u32FromStr
        [{ flushOk := true, line := Except.ok "abc" }] ≠ ReadOutcome.panic ["Edad: "] :=
  ⟨(c7_flush_failure_only_abnormal_exit (Input.new "Edad") u32FromStr).1 (Except.ok "42")
      [{ flushOk := true, line := Except.ok "42" }],
   (c7_flush_failure_only_abnormal_exit (Input.new "Edad") u32FromStr).2
      [{ flushOk := true, line := Except.ok "abc" }] (by decide) ["Edad: "]⟩

/-- Claim C8: applying `validate` or `err_msg` repeatedly keeps only the
last-supplied predicate or message: the doubly-configured builder states are
equal (as whole configurations) to the singly-configured ones. -/
theorem c8_last_configuration_wins {T : Type} (c : Input T) (p1 p2 : T → Bool)
    (m1 m2 : String) :
    (c.validate p1).validate p2 = c.validate p2
    ∧ (c.errMsg m1).errMsg m2 = c.errMsg m2 :=
  ⟨rfl, rfl⟩

/-- Claim C9: trimming happens before parsing, so any two raw lines with the
same trimmed text convert identically through `_read`; in particular
`" 7 "` and `"7"` parse identically for the `u32` target, and `" 42\n"`
parses as 42. -/
theorem c9_trim_before_parse :
    (∀ (T : Type) (fs : FromStr T) (L1 L2 : String), rustTrim L1 = rustTrim L2 →
        _read fs (Except.ok L1) = _read fs (Except.ok L2))
    ∧ _read u32FromStr (Except.ok " 7 ") = _read u32FromStr (Except.ok "7")
    ∧ _read u32FromStr (Except.ok " 42\n") = Except.ok 42 :=
  ⟨fun T fs L1 L2 h => by simp [_read, h], by rfl, by rfl⟩

/-- Witness for C9: the padded line `"  hello  "` converts exactly like
`"hello"` for the `String` target. -/
theorem c9_trim_before_parse_witness :
    _read stringFromStr (Except.ok "  hello  ") = _read stringFromStr (Except.ok "hello") :=
  c9_trim_before_parse.1 String stringFromStr "  hello  " "hello" (by rfl)

/-- Claim C10: each builder operation changes only its own field — `validate`
keeps the prompt and the error message, `err_msg` keeps the prompt and the
predicate — and consequently the two operations commute. -/
theorem c10_builder_frame_conditions {T : Type} (c : Input T) (p : T → Bool) (m : String) :
    (c.validate p).msg = c.msg
    ∧ (c.validate p).err_msg = c.err_msg
    ∧ (c.errMsg m).msg = c.msg
    ∧ (c.errMsg m).predicate = c.predicate
    ∧ (c.validate p).errMsg m = (c.errMsg m).validate p :=
  ⟨rfl, rfl, rfl, rfl, rfl⟩
